import Mathlib

/-!
Shallow embedding of `src/planet_chart.py` (planet rise/set chart generator).

Python floats are modelled as `ℚ` (every operation the claims touch — division by 15,
`floor`, `* 24`, subtraction, comparisons — is exact on the decimal inputs involved),
Python ints as `ℤ`.  The pyephem ephemeris engine is external: each `obs.next_rising`
/ `obs.next_setting` call is modelled by an oracle `String → Option ℚ` from the date
string the observer was set to, returning the raw fractional-day value, or `none` when
pyephem raises (no event within the search horizon), which the `try/except` swallows.
-/

namespace PlanetChart

/-- Truncation toward zero on `ℚ`, modelling Python 2's `int(...)` applied to a float. -/
def ratTrunc (q : ℚ) : ℤ := if 0 ≤ q then ⌊q⌋ else ⌈q⌉

/-- Line 103: `time_diff = int(longitude / 15)` — the integer time-zone offset
approximation used to re-center the chart. -/
def time_diff (longitude : ℚ) : ℤ := ratTrunc (longitude / 15)

/-- The observer state built at lines 106-110.  The source stores the angles in radians
(`latitude * pi / 180.`); the scaling by `pi / 180` is a fixed injective map applied to
both coordinates, so we record the degree values: two observer states are equal exactly
when their source counterparts are. `horizon` is the degree value of the string selector
(`'0'` for rise/set, `'-18'` for astronomical twilight). -/
structure Observer where
  pressure : ℚ
  horizon : ℚ
  latDeg : ℚ
  lonDeg : ℚ
deriving DecidableEq

/-- Lines 61-72, `get_body_rise(planet, date, obs, noon)`: the pyephem call
`obs.next_rising(planet).triple()[2]` is the oracle result `rising?` (`none` models the
exception caught at lines 64-67, returning Python `None`). -/
def get_body_rise (rising? : Option ℚ) (noon : ℚ) : Option ℚ :=
  match rising? with
  | none => none
  | some rising =>
    let rising := (rising - (⌊rising⌋ : ℚ)) * 24
    if rising > noon then some (rising - 24) else some rising

/-- Lines 76-87, `get_body_set(planet, date, obs, min_time)`: same shape as
`get_body_rise` with `obs.next_setting` as the oracle. -/
def get_body_set (setting? : Option ℚ) (min_time : ℚ) : Option ℚ :=
  match setting? with
  | none => none
  | some setting =>
    let setting := (setting - (⌊setting⌋ : ℚ)) * 24
    if setting > min_time then some (setting - 24) else some setting

/-- The per-entry condition of `numpy.ma.masked_outside(x, v1, v2)`: the boundaries may
be given in either order (numpy swaps them when `v2 < v1`), and an entry strictly
outside `[min v1 v2, max v1 v2]` is masked.  A masked or absent entry is `none`; it
stays at its index.  A Python `None` entry (failed ephemeris query) compares below
every number in Python 2, so it is always masked: `none ↦ none`. -/
def maskEntry (v1 v2 : ℚ) (x? : Option ℚ) : Option ℚ :=
  match x? with
  | none => none
  | some x => if x < min v1 v2 ∨ x > max v1 v2 then none else some x

/-- `numpy.ma.masked_outside` itself: the elementwise mask over the list, preserving
every index. -/
def masked_outside (xs : List (Option ℚ)) (v1 v2 : ℚ) : List (Option ℚ) :=
  xs.map (maskEntry v1 v2)

/-- Lines 43-57, `get_planet_times(body, times, obs, time_difference)`: builds the rise
and set lists over the calendar day sequence (the `for time in times` append loop is the
`List.map`) and returns them masked to the window around local midnight.  Both inner
calls receive `noon` as the reference (lines 53-54).  `riseEph` / `setEph` are the
ephemeris oracles for this body and observer. -/
def get_planet_times (riseEph setEph : String → Option ℚ) (times : List String)
    (time_difference : ℤ) : List (Option ℚ) × List (Option ℚ) :=
  let midnight : ℚ := ((-time_difference : ℤ) : ℚ)
  let noon : ℚ := (((-time_difference + 12) % 24 : ℤ) : ℚ)
  let body_rise_times := times.map fun time => get_body_rise (riseEph time) noon
  let body_set_times := times.map fun time => get_body_set (setEph time) noon
  (masked_outside body_rise_times (midnight + 10) (midnight - 10),
   masked_outside body_set_times (midnight + 10) (midnight - 10))

/-- The §4.1 time normalizer as the spec words it: convert the fractional day to hours,
subtract 24 when the result exceeds the reference.  Used to compare the source
functions against the spec's description. -/
def specNormalize (ref x : ℚ) : ℚ :=
  let h := (x - (⌊x⌋ : ℚ)) * 24
  if h > ref then h - 24 else h

/-- Line 127: `days_in_month = [31, 28, 31, 30, 31, 30, 31, 31, 30, 31, 30, 31]`. -/
def days_in_month : List ℤ := [31, 28, 31, 30, 31, 30, 31, 31, 30, 31, 30, 31]

/-- The mutable locals of the calendar `while` loop at lines 123-142, apart from
`current_year` (tracked separately, see `whileStep`).  `time_array` records the
`(month, day)` arguments of each appended date string; the string itself is the pure
function `dateString` of `(current_year, month, day)` and `current_year` never changes,
so appending the pair loses nothing (see `time_array`). -/
structure LoopState where
  count : ℤ
  month : ℤ
  cumulative_days : ℤ
  time_array : List (ℤ × ℤ)
  done : Bool
deriving DecidableEq

/-- Initial values from lines 123-128: `count = 0`, `month = 1`, `cumulative_days = 0`,
empty `time_array`, loop not yet exited. -/
def loopInit : LoopState :=
  { count := 0, month := 1, cumulative_days := 0, time_array := [], done := false }

/-- The body of the `while` loop, lines 130-142.  Python 2 `/` on ints is floor
division, as is Lean's `ℤ` division; `time / 60 / 24 = count` exactly.  Python `%` with
the positive modulus `days_in_month[month-1]` is nonnegative, as is Lean's `ℤ` `%`.
The index `month - 1` is within `days_in_month` whenever the body runs (the `break`
fires in the same iteration that `month` reaches 13), so the `getD` default is never
consulted from a reachable state.  The sequential rebindings mirror the Python
statements: `day` is first computed from the current month, then the roll-over test
updates `cumulative_days`, `month`, `day`, then `month > 12` breaks (setting `done`),
otherwise the date is appended and `count` incremented. -/
def loopBody (s : LoopState) : LoopState :=
  let time := s.count * 24 * 60
  let dim := days_in_month.getD (s.month - 1).toNat 31
  let day := (time / 60 / 24 - s.cumulative_days) % dim + 1
  let roll := (time / 60 / 24 - s.cumulative_days) % dim = 0 ∧ s.count > 1
  let cumulative_days := if roll then s.cumulative_days + dim else s.cumulative_days
  let month := if roll then s.month + 1 else s.month
  let day := if roll then 1 else day
  if month > 12 then
    { s with month := month, cumulative_days := cumulative_days, done := true }
  else
    { count := s.count + 1, month := month, cumulative_days := cumulative_days,
      time_array := s.time_array ++ [(month, day)], done := false }

/-- One iteration of the loop once `current_year` is abstracted away: a finished loop
stays finished, otherwise the body runs. -/
def innerStep (s : LoopState) : LoopState :=
  if s.done then s else loopBody s

/-- Full state of the `while current_year == year` loop: the locals plus
`current_year` (line 125), which the condition reads on every iteration. -/
structure WhileState where
  inner : LoopState
  current_year : ℤ
deriving DecidableEq

/-- Initial `while`-state: `current_year = year` (line 125). -/
def whileInit (year : ℤ) : WhileState :=
  { inner := loopInit, current_year := year }

/-- One test-and-run of `while current_year == year`: nothing happens after the loop
has exited (`done`); otherwise the condition is tested — if it failed the loop would
exit (`done := true`), and if it holds the body runs. -/
def whileStep (year : ℤ) (s : WhileState) : WhileState :=
  if s.inner.done then s
  else if s.current_year = year then { s with inner := loopBody s.inner }
  else { s with inner := { s.inner with done := true } }

/-- Lines 138-141: the date string appended for a given year, month and day, with the
day zero-padded below 10. -/
def dateString (year month day : ℤ) : String :=
  if day ≥ 10 then
    toString year ++ "/" ++ toString month ++ "/" ++ toString day
  else
    toString year ++ "/" ++ toString month ++ "/0" ++ toString day

/-- The `time_array` list built by the loop for a given year: 366 iterations of
`whileStep` suffice to reach the `break` (proved below — running longer changes
nothing), and the recorded `(month, day)` pairs are formatted with the year. -/
def time_array (year : ℤ) : List String :=
  ((whileStep year)^[366] (whileInit year)).inner.time_array.map
    fun md => dateString year md.1 md.2

/-- The `(month, day)` pairs of the calendar day sequence, independent of the year. -/
def calendarPairs : List (ℤ × ℤ) :=
  (innerStep^[366] loopInit).time_array

/-- Reference description of day `i` of the year under fixed month lengths: walk the
month-length list, consuming whole months.  `specMonthDay lens m r` is the
(1-based month, 1-based day) of the `r`-th remaining day starting at month `m`. -/
def specMonthDay : List ℤ → ℤ → ℤ → ℤ × ℤ
  | [], m, r => (m, r + 1)
  | len :: rest, m, r => if r < len then (m, r + 1) else specMonthDay rest (m + 1) (r - len)

/-- Month and day of the 0-based day-of-year `i` under the fixed month lengths. -/
def specDayOfYear (i : ℕ) : ℤ × ℤ := specMonthDay days_in_month 1 i

/-- Lines 92-110 of the main program: the `longitude == -180` normalization, the two
range checks raising `ValueError` (modelled as `Except.error`, aborting the program),
then `time_diff` and the observer construction.  The latitude message is kept verbatim
from the source, including its `-180 and +180` wording. -/
def programSetup (latitude longitude : ℚ) : Except String (ℤ × Observer) :=
  let longitude := if longitude = -180 then (180 : ℚ) else longitude
  if -180 > longitude ∨ longitude > 180 then
    Except.error "Longitude must be between -180 and +180 in units of degrees"
  else if -90 > latitude ∨ latitude > 90 then
    Except.error "Latitude must be between -180 and +180 in units of degrees"
  else
    Except.ok (time_diff longitude,
      { pressure := 0, horizon := 0, latDeg := latitude, lonDeg := longitude })

/-- The whole-program skeleton: setup, then one masked rise/set series pair per entry
of `ephs` (one ephemeris oracle pair per body and horizon setting, lines 145-156) over
the calendar day sequence.  A setup error aborts before any oracle is consulted; the
plotting and file output (lines 158-216) are outside the model. -/
def runProgram (ephs : List ((String → Option ℚ) × (String → Option ℚ)))
    (latitude longitude : ℚ) (year : ℤ) :
    Except String (List (List (Option ℚ) × List (Option ℚ))) :=
  match programSetup latitude longitude with
  | Except.error e => Except.error e
  | Except.ok (d, _) =>
      Except.ok (ephs.map fun eph => get_planet_times eph.1 eph.2 (time_array year) d)

/-! ## Helper lemmas -/

lemma get_body_rise_some (x r : ℚ) :
    get_body_rise (some x) r = some (specNormalize r x) := by
  by_cases h : (x - (⌊x⌋ : ℚ)) * 24 > r
  · simp only [get_body_rise, specNormalize, if_pos h]
  · simp only [get_body_rise, specNormalize, if_neg h]

lemma get_body_set_some (x r : ℚ) :
    get_body_set (some x) r = some (specNormalize r x) := by
  by_cases h : (x - (⌊x⌋ : ℚ)) * 24 > r
  · simp only [get_body_set, specNormalize, if_pos h]
  · simp only [get_body_set, specNormalize, if_neg h]

lemma get_body_rise_eq_map (o : Option ℚ) (r : ℚ) :
    get_body_rise o r = o.map (specNormalize r) := by
  cases o with
  | none => rfl
  | some x => rw [get_body_rise_some]; rfl

lemma get_body_set_eq_map (o : Option ℚ) (r : ℚ) :
    get_body_set o r = o.map (specNormalize r) := by
  cases o with
  | none => rfl
  | some x => rw [get_body_set_some]; rfl

lemma specNormalize_bounds (x ref : ℚ) (h0 : 0 ≤ ref) (h24 : ref < 24) :
    specNormalize ref x ≤ ref ∧ ref - 24 < specNormalize ref x := by
  unfold specNormalize
  have hf0 : 0 ≤ x - (⌊x⌋ : ℚ) := by
    have := Int.floor_le x
    linarith
  have hf1 : x - (⌊x⌋ : ℚ) < 1 := by
    have := Int.lt_floor_add_one x
    linarith
  by_cases h : (x - (⌊x⌋ : ℚ)) * 24 > ref
  · simp only [if_pos h]
    constructor <;> nlinarith
  · simp only [if_neg h]
    push_neg at h
    constructor <;> nlinarith

/-! ## Theorems for the claims -/

/-- C3 counterexample: the normalizer bounds fail for a reference outside [0, 24): at
ref = −1 and raw value x = 47/48 day, the output is −1/2, which is not ≤ −1. -/
theorem normalizer_c3_counterexample :
    get_body_rise (some (47/48)) (-1) = some (-(1/2)) ∧
    ¬ ((-(1/2) : ℚ) ≤ -1) := by
  constructor
  · rw [get_body_rise_some]
    norm_num [specNormalize]
  · norm_num

/-- C3 (amended): for any raw fractional-day input x and any reference ref with
0 ≤ ref < 24 — which covers every reference the program passes, since
noon = (−offset + 12) mod 24 always lies in [0, 24) — the normalized output h of
`get_body_rise` or `get_body_set` satisfies h ≤ ref and h > ref − 24. -/
theorem normalizer_bounds_c3 (x ref : ℚ) (h0 : 0 ≤ ref) (h24 : ref < 24) :
    (∀ h, get_body_rise (some x) ref = some h → h ≤ ref ∧ ref - 24 < h) ∧
    (∀ h, get_body_set (some x) ref = some h → h ≤ ref ∧ ref - 24 < h) ∧
    (∀ d : ℤ, 0 ≤ (-d + 12) % 24 ∧ (-d + 12) % 24 < 24) := by
  have hb := specNormalize_bounds x ref h0 h24
  refine ⟨?_, ?_, ?_⟩
  · intro h hh
    rw [get_body_rise_some] at hh
    cases hh
    exact hb
  · intro h hh
    rw [get_body_set_some] at hh
    cases hh
    exact hb
  · intro d
    exact ⟨Int.emod_nonneg _ (by norm_num), Int.emod_lt_of_pos _ (by norm_num)⟩

/-- Witness for the amended C3 at x = 47/48, ref = 6. -/
theorem normalizer_bounds_c3_witness :
    (0 : ℚ) ≤ 6 ∧ (6 : ℚ) < 24 ∧
    (∀ h, get_body_rise (some (47/48)) 6 = some h → h ≤ 6 ∧ 6 - 24 < h) := by
  exact ⟨by norm_num, by norm_num,
    (normalizer_bounds_c3 (47/48) 6 (by norm_num) (by norm_num)).1⟩

/-- C1 counterexample: with offset −6 the claimed set reference is −offset = 6, but the
program passes noon = ((6 + 12) mod 24) = 18 to `get_body_set`.  A raw setting value of
5/12 day (10:00 UTC) appears as 10 in the actual set series, while normalizing against
the claimed reference 6 would give −14. -/
theorem set_reference_c1_counterexample :
    (get_planet_times (fun _ => none) (fun _ => some (5/12)) ["2017/01/01"] (-6)).2
      = [some 10] ∧
    get_body_set (some (5/12)) 6 = some (-14) ∧
    some (10 : ℚ) ≠ some (-14 : ℚ) := by
  refine ⟨?_, ?_, by norm_num⟩
  · unfold get_planet_times
    norm_num [masked_outside, maskEntry, get_body_set_eq_map, specNormalize,
      min_def, max_def]
  · rw [get_body_set_some]
    norm_num [specNormalize]

/-- C1 (amended): every rise sample is normalized with the reference
ref_rise = ((−offset + 12) mod 24) (local solar noon in UTC hours), and every set
sample is normalized with that same noon reference, not with −offset. -/
theorem rise_set_reference_c1 (riseEph setEph : String → Option ℚ)
    (times : List String) (d : ℤ) :
    (get_planet_times riseEph setEph times d).1
      = masked_outside
          (times.map fun t => (riseEph t).map (specNormalize (((-d + 12) % 24 : ℤ) : ℚ)))
          (((-d : ℤ) : ℚ) + 10) (((-d : ℤ) : ℚ) - 10) ∧
    (get_planet_times riseEph setEph times d).2
      = masked_outside
          (times.map fun t => (setEph t).map (specNormalize (((-d + 12) % 24 : ℤ) : ℚ)))
          (((-d : ℤ) : ℚ) + 10) (((-d : ℤ) : ℚ) - 10) := by
  unfold get_planet_times
  constructor
  · simp only [get_body_rise_eq_map]
  · simp only [get_body_set_eq_map]

/-- C9: `get_body_rise` and `get_body_set` are the same function of the oracle result
and the reference (they differ only in which ephemeris event the oracle answers for),
and `get_planet_times` passes the same noon reference to both, so swapping the two
oracles exactly swaps the two output series. -/
theorem rise_set_symmetric_c9 :
    (∀ (o : Option ℚ) (r : ℚ), get_body_rise o r = get_body_set o r) ∧
    (∀ (riseEph setEph : String → Option ℚ) (times : List String) (d : ℤ),
      get_planet_times riseEph setEph times d
        = ((get_planet_times setEph riseEph times d).2,
           (get_planet_times setEph riseEph times d).1)) := by
  have h : ∀ (o : Option ℚ) (r : ℚ), get_body_rise o r = get_body_set o r := by
    intro o r
    cases o <;> rfl
  refine ⟨h, fun riseEph setEph times d => ?_⟩
  unfold get_planet_times
  simp only [h]

/-- C5: the rise and set series returned by `get_planet_times` each have exactly as
many entries as the calendar day sequence passed in; the window mask never changes
length, keeps an in-window sample unchanged at its index and replaces an out-of-window
sample by a suppressed placeholder at its original index; in particular a sample of
value midnight + 15 (midnight = −offset) lies outside [midnight − 10, midnight + 10]
and becomes a placeholder exactly at its original position. -/
theorem series_alignment_c5 :
    (∀ (riseEph setEph : String → Option ℚ) (times : List String) (d : ℤ),
      (get_planet_times riseEph setEph times d).1.length = times.length ∧
      (get_planet_times riseEph setEph times d).2.length = times.length) ∧
    (∀ (xs : List (Option ℚ)) (v1 v2 : ℚ),
      (masked_outside xs v1 v2).length = xs.length) ∧
    (∀ (xs : List (Option ℚ)) (v1 v2 : ℚ) (i : ℕ) (x : ℚ),
      xs[i]? = some (some x) →
      (min v1 v2 ≤ x ∧ x ≤ max v1 v2 →
        (masked_outside xs v1 v2)[i]? = some (some x)) ∧
      (x < min v1 v2 ∨ x > max v1 v2 →
        (masked_outside xs v1 v2)[i]? = some none)) ∧
    (∀ (d : ℤ) (pre post : List (Option ℚ)),
      masked_outside (pre ++ some (((-d : ℤ) : ℚ) + 15) :: post)
          (((-d : ℤ) : ℚ) + 10) (((-d : ℤ) : ℚ) - 10)
        = masked_outside pre (((-d : ℤ) : ℚ) + 10) (((-d : ℤ) : ℚ) - 10)
          ++ none :: masked_outside post (((-d : ℤ) : ℚ) + 10) (((-d : ℤ) : ℚ) - 10)) := by
  refine ⟨?_, ?_, ?_, ?_⟩
  · intro riseEph setEph times d
    unfold get_planet_times
    constructor <;> simp [masked_outside]
  · intro xs v1 v2
    simp [masked_outside]
  · intro xs v1 v2 i x hx
    rw [masked_outside, List.getElem?_map, hx, Option.map_some']
    constructor
    · intro hin
      have hcond : ¬ (x < min v1 v2 ∨ x > max v1 v2) := by
        push_neg
        exact hin
      show some (maskEntry v1 v2 (some x)) = some (some x)
      rw [show maskEntry v1 v2 (some x)
            = if x < min v1 v2 ∨ x > max v1 v2 then none else some x from rfl,
        if_neg hcond]
    · intro hout
      show some (maskEntry v1 v2 (some x)) = some none
      rw [show maskEntry v1 v2 (some x)
            = if x < min v1 v2 ∨ x > max v1 v2 then none else some x from rfl,
        if_pos hout]
  · intro d pre post
    have hmid : maskEntry (((-d : ℤ) : ℚ) + 10) (((-d : ℤ) : ℚ) - 10)
        (some (((-d : ℤ) : ℚ) + 15)) = none := by
      rw [show maskEntry (((-d : ℤ) : ℚ) + 10) (((-d : ℤ) : ℚ) - 10)
              (some (((-d : ℤ) : ℚ) + 15))
            = if ((-d : ℤ) : ℚ) + 15 < min (((-d : ℤ) : ℚ) + 10) (((-d : ℤ) : ℚ) - 10) ∨
                ((-d : ℤ) : ℚ) + 15 > max (((-d : ℤ) : ℚ) + 10) (((-d : ℤ) : ℚ) - 10)
              then none else some (((-d : ℤ) : ℚ) + 15) from rfl]
      refine if_pos (Or.inr ?_)
      rw [max_eq_left (by linarith)]
      linarith
    unfold masked_outside
    rw [List.map_append, List.map_cons, hmid]

/-- Witness for C5 at the singleton series [21] with window [−4, 16] (midnight 6,
sample 6 + 15 = 21): suppressed, but present at index 0. -/
theorem series_alignment_c5_witness :
    ([some (21 : ℚ)] : List (Option ℚ))[0]? = some (some (21 : ℚ)) ∧
    ((21 : ℚ) < min (16 : ℚ) (-4 : ℚ) ∨ (21 : ℚ) > max (16 : ℚ) (-4 : ℚ)) ∧
    (masked_outside [some (21 : ℚ)] 16 (-4))[0]? = some none := by
  have hout : (21 : ℚ) < min (16 : ℚ) (-4 : ℚ) ∨ (21 : ℚ) > max (16 : ℚ) (-4 : ℚ) := by
    refine Or.inr ?_
    rw [max_eq_left (by norm_num : (-4 : ℚ) ≤ 16)]
    norm_num
  exact ⟨rfl, hout,
    (series_alignment_c5.2.2.1 [some 21] 16 (-4) 0 21 rfl).2 hout⟩

/-- C6: when the ephemeris adapter signals failure for a body and date (the oracle
answers `none`, modelling the exception caught at lines 64-67 / 79-82), that day's
sample is the absent value `none`, and the per-year series is still produced in full:
the output keeps the length of the calendar sequence, with `none` at that day's index. -/
theorem no_event_absent_c6 :
    (∀ r : ℚ, get_body_rise none r = none ∧ get_body_set none r = none) ∧
    (∀ (riseEph setEph : String → Option ℚ) (times : List String) (d : ℤ)
        (i : ℕ) (t : String), times[i]? = some t → riseEph t = none →
      (get_planet_times riseEph setEph times d).1[i]? = some none ∧
      (get_planet_times riseEph setEph times d).1.length = times.length) ∧
    (∀ (riseEph setEph : String → Option ℚ) (times : List String) (d : ℤ)
        (i : ℕ) (t : String), times[i]? = some t → setEph t = none →
      (get_planet_times riseEph setEph times d).2[i]? = some none ∧
      (get_planet_times riseEph setEph times d).2.length = times.length) := by
  refine ⟨fun r => ⟨rfl, rfl⟩, ?_, ?_⟩
  · intro riseEph setEph times d i t ht hr
    have h1 : (get_planet_times riseEph setEph times d).1
        = masked_outside
            (times.map fun time => get_body_rise (riseEph time) (((-d + 12) % 24 : ℤ) : ℚ))
            (((-d : ℤ) : ℚ) + 10) (((-d : ℤ) : ℚ) - 10) := rfl
    rw [h1]
    constructor
    · rw [masked_outside, List.getElem?_map, List.getElem?_map, ht, Option.map_some',
        Option.map_some', hr]
      rfl
    · simp [masked_outside]
  · intro riseEph setEph times d i t ht hs
    have h2 : (get_planet_times riseEph setEph times d).2
        = masked_outside
            (times.map fun time => get_body_set (setEph time) (((-d + 12) % 24 : ℤ) : ℚ))
            (((-d : ℤ) : ℚ) + 10) (((-d : ℤ) : ℚ) - 10) := rfl
    rw [h2]
    constructor
    · rw [masked_outside, List.getElem?_map, List.getElem?_map, ht, Option.map_some',
        Option.map_some', hs]
      rfl
    · simp [masked_outside]

/-- Witness for C6: a one-day year whose oracles always fail still yields a length-one
rise series with the absent value at index 0. -/
theorem no_event_absent_c6_witness :
    (["2017/01/01"] : List String)[0]? = some "2017/01/01" ∧
    ((fun _ : String => (none : Option ℚ)) "2017/01/01" = none) ∧
    (get_planet_times (fun _ => none) (fun _ => none) ["2017/01/01"] (-6)).1[0]?
      = some none := by
  exact ⟨rfl, rfl,
    (no_event_absent_c6.2.1 (fun _ => none) (fun _ => none) ["2017/01/01"] (-6) 0
      "2017/01/01" rfl rfl).1⟩

end PlanetChart

namespace PlanetChart

/-! ## Calendar loop lemmas -/

lemma whileStep_on_year (year : ℤ) (s : LoopState) :
    whileStep year ⟨s, year⟩ = ⟨innerStep s, year⟩ := by
  unfold whileStep innerStep
  by_cases h : s.done <;> simp [h]

lemma whileIter_eq (year : ℤ) (n : ℕ) :
    (whileStep year)^[n] (whileInit year) = ⟨innerStep^[n] loopInit, year⟩ := by
  induction n with
  | zero => rfl
  | succ n ih =>
      rw [Function.iterate_succ_apply', Function.iterate_succ_apply', ih,
        whileStep_on_year]

lemma innerStep_fixed {s : LoopState} (h : s.done = true) : innerStep s = s := by
  simp [innerStep, h]

lemma innerStep_iter_fixed (k : ℕ) {s : LoopState} (h : s.done = true) :
    innerStep^[k] s = s := by
  induction k with
  | zero => rfl
  | succ k ih => rw [Function.iterate_succ_apply, innerStep_fixed h, ih]

set_option maxRecDepth 100000 in
lemma loop_366_facts :
    (innerStep^[366] loopInit).done = true ∧
    (innerStep^[366] loopInit).month = 13 ∧
    (innerStep^[366] loopInit).time_array.length = 365 := by
  decide

set_option maxRecDepth 100000 in
lemma calendarPairs_spec :
    calendarPairs = (List.range 365).map (fun i => specDayOfYear i) ∧
    ((2 : ℤ), (29 : ℤ)) ∉ calendarPairs := by
  decide

lemma time_array_eq (year : ℤ) :
    time_array year = calendarPairs.map fun md => dateString year md.1 md.2 := by
  unfold time_array calendarPairs
  rw [whileIter_eq]

/-- C4: for every target year (leap or not), the calendar day sequence has exactly 365
entries, entry i is the date string of day i of the year under the fixed month lengths
[31,28,31,30,31,30,31,31,30,31,30,31], and no leap day (February 29) is ever
produced. -/
theorem calendar_sequence_c4 (year : ℤ) :
    (time_array year).length = 365 ∧
    time_array year
      = (List.range 365).map
          (fun i => dateString year (specDayOfYear i).1 (specDayOfYear i).2) ∧
    ((2 : ℤ), (29 : ℤ)) ∉ calendarPairs := by
  have h := time_array_eq year
  have hs := calendarPairs_spec
  refine ⟨?_, ?_, hs.2⟩
  · rw [h, hs.1]
    simp
  · rw [h, hs.1, List.map_map]
    rfl

/-- C10: for every integer year, iterating the `while current_year == year` loop
stabilizes after 366 steps with the exit flag set by the `month > 12` break (month is
13 at exit) and 365 appended entries, even though `current_year` equals `year` at every
step, so the loop condition itself is never falsified. -/
theorem loop_terminates_c10 (year : ℤ) :
    (∀ n : ℕ, ((whileStep year)^[n] (whileInit year)).current_year = year) ∧
    ((whileStep year)^[366] (whileInit year)).inner.done = true ∧
    ((whileStep year)^[366] (whileInit year)).inner.month = 13 ∧
    ((whileStep year)^[366] (whileInit year)).inner.time_array.length = 365 ∧
    (∀ k : ℕ, (whileStep year)^[366 + k] (whileInit year)
      = (whileStep year)^[366] (whileInit year)) := by
  refine ⟨?_, ?_, ?_, ?_, ?_⟩
  · intro n
    rw [whileIter_eq]
  · rw [whileIter_eq]
    exact loop_366_facts.1
  · rw [whileIter_eq]
    exact loop_366_facts.2.1
  · rw [whileIter_eq]
    exact loop_366_facts.2.2
  · intro k
    rw [whileIter_eq, whileIter_eq, Nat.add_comm, Function.iterate_add_apply,
      innerStep_iter_fixed k loop_366_facts.1]

/-! ## Offset and validation -/

/-- C2 counterexample: Python 2's `int()` truncates toward zero, so for the default
longitude −80.552901 the program computes the offset −5, whereas
floor(−80.552901 / 15) = −6 as the claim states. -/
theorem offset_c2_counterexample :
    time_diff (-80552901/1000000) = -5 ∧
    ⌊((-80552901 : ℚ)/1000000/15)⌋ = -6 ∧
    (-5 : ℤ) ≠ -6 := by
  refine ⟨?_, by norm_num, by norm_num⟩
  unfold time_diff ratTrunc
  rw [if_neg (by norm_num)]
  rw [Int.ceil_eq_iff]
  norm_num

/-- C2 (amended): the offset is `int(longitude / 15)`, truncation toward zero: it
equals ⌊longitude/15⌋ for nonnegative longitude and ⌈longitude/15⌉ for negative
longitude; for longitude = −80.552901 the offset equals −5 (so
local-midnight-UTC-hours = 5). -/
theorem offset_trunc_c2 :
    time_diff (-80552901/1000000) = -5 ∧
    -time_diff (-80552901/1000000) = 5 ∧
    (∀ q : ℚ, 0 ≤ q → time_diff q = ⌊q / 15⌋) ∧
    (∀ q : ℚ, q < 0 → time_diff q = ⌈q / 15⌉) := by
  have hdef : time_diff (-80552901/1000000) = -5 := by
    unfold time_diff ratTrunc
    rw [if_neg (by norm_num)]
    rw [Int.ceil_eq_iff]
    norm_num
  refine ⟨hdef, by rw [hdef]; norm_num, ?_, ?_⟩
  · intro q hq
    unfold time_diff ratTrunc
    rw [if_pos (div_nonneg hq (by norm_num))]
  · intro q hq
    unfold time_diff ratTrunc
    rw [if_neg (not_le.mpr (div_neg_of_neg_of_pos hq (by norm_num)))]

/-- Witness for the amended C2 at longitudes 30 and −30. -/
theorem offset_trunc_c2_witness :
    ((0 : ℚ) ≤ 30 ∧ time_diff 30 = ⌊(30 : ℚ) / 15⌋) ∧
    ((-30 : ℚ) < 0 ∧ time_diff (-30) = ⌈(-30 : ℚ) / 15⌉) := by
  exact ⟨⟨by norm_num, offset_trunc_c2.2.2.1 30 (by norm_num)⟩,
    ⟨by norm_num, offset_trunc_c2.2.2.2 (-30) (by norm_num)⟩⟩

lemma programSetup_error_lon (latitude longitude : ℚ)
    (h : longitude < -180 ∨ 180 < longitude) :
    programSetup latitude longitude
      = Except.error "Longitude must be between -180 and +180 in units of degrees" := by
  have hne : longitude ≠ -180 := by
    rcases h with h | h <;> rintro rfl <;> norm_num at h
  unfold programSetup
  simp only [if_neg hne]
  rw [if_pos h]

lemma programSetup_error_lat (latitude longitude : ℚ)
    (hlat : latitude < -90 ∨ 90 < latitude)
    (hlon : ¬ longitude < -180 ∧ ¬ 180 < longitude) :
    programSetup latitude longitude
      = Except.error "Latitude must be between -180 and +180 in units of degrees" := by
  unfold programSetup
  by_cases hne : longitude = -180
  · simp only [if_pos hne]
    rw [if_neg (by norm_num), if_pos hlat]
  · simp only [if_neg hne]
    rw [if_neg (not_or.mpr hlon), if_pos hlat]

lemma programSetup_ok (latitude longitude : ℚ)
    (h1 : -90 ≤ latitude) (h2 : latitude ≤ 90)
    (h3 : -180 ≤ longitude) (h4 : longitude ≤ 180) :
    ∃ d obs, programSetup latitude longitude = Except.ok (d, obs) := by
  have hlat : ¬ (-90 > latitude ∨ latitude > 90) :=
    not_or.mpr ⟨not_lt.mpr h1, not_lt.mpr h2⟩
  unfold programSetup
  by_cases hne : longitude = -180
  · simp only [if_pos hne]
    rw [if_neg (by norm_num), if_neg hlat]
    exact ⟨_, _, rfl⟩
  · simp only [if_neg hne]
    rw [if_neg (not_or.mpr ⟨not_lt.mpr h3, not_lt.mpr h4⟩), if_neg hlat]
    exact ⟨_, _, rfl⟩

/-- C7: an out-of-range latitude or longitude aborts the program with a configuration
error whose value does not depend on the ephemeris oracles (no query executes — the
abort happens in the setup, before the series computations); an in-range configuration
passes validation and the computation proceeds to a result. -/
theorem validation_c7 (latitude longitude : ℚ) :
    ((latitude < -90 ∨ 90 < latitude ∨ longitude < -180 ∨ 180 < longitude) →
      ∃ e, ∀ (ephs : List ((String → Option ℚ) × (String → Option ℚ))) (year : ℤ),
        runProgram ephs latitude longitude year = Except.error e) ∧
    (-90 ≤ latitude → latitude ≤ 90 → -180 ≤ longitude → longitude ≤ 180 →
      ∀ (ephs : List ((String → Option ℚ) × (String → Option ℚ))) (year : ℤ),
        ∃ v, runProgram ephs latitude longitude year = Except.ok v) := by
  constructor
  · intro hbad
    by_cases hlon : longitude < -180 ∨ 180 < longitude
    · refine ⟨"Longitude must be between -180 and +180 in units of degrees",
        fun ephs year => ?_⟩
      unfold runProgram
      rw [programSetup_error_lon latitude longitude hlon]
    · have hlat : latitude < -90 ∨ 90 < latitude := by
        rcases hbad with h | h | h | h
        · exact Or.inl h
        · exact Or.inr h
        · exact absurd (Or.inl h) hlon
        · exact absurd (Or.inr h) hlon
      refine ⟨"Latitude must be between -180 and +180 in units of degrees",
        fun ephs year => ?_⟩
      unfold runProgram
      rw [programSetup_error_lat latitude longitude hlat (not_or.mp hlon)]
  · intro h1 h2 h3 h4 ephs year
    obtain ⟨d, obs, heq⟩ := programSetup_ok latitude longitude h1 h2 h3 h4
    exact ⟨_, by unfold runProgram; rw [heq]⟩

/-- Witness for C7: latitude 91 and longitude 181 abort; the default configuration
proceeds. -/
theorem validation_c7_witness :
    (∃ e, ∀ (ephs : List ((String → Option ℚ) × (String → Option ℚ))) (year : ℤ),
      runProgram ephs 91 0 year = Except.error e) ∧
    (∃ e, ∀ (ephs : List ((String → Option ℚ) × (String → Option ℚ))) (year : ℤ),
      runProgram ephs 0 181 year = Except.error e) ∧
    (∃ v, runProgram [] (43475085/1000000) (-80552901/1000000) 2017 = Except.ok v) := by
  exact ⟨(validation_c7 91 0).1 (Or.inr (Or.inl (by norm_num))),
    (validation_c7 0 181).1 (Or.inr (Or.inr (Or.inr (by norm_num)))),
    (validation_c7 (43475085/1000000) (-80552901/1000000)).2 (by norm_num) (by norm_num)
      (by norm_num) (by norm_num) [] 2017⟩

/-- C8: an input longitude of exactly −180 is normalized to +180 before validation and
produces the same time-zone offset, the same observer state, and the same overall
program result as an input of +180. -/
theorem longitude_boundary_c8 (latitude : ℚ) :
    programSetup latitude (-180) = programSetup latitude 180 ∧
    (∀ (ephs : List ((String → Option ℚ) × (String → Option ℚ))) (year : ℤ),
      runProgram ephs latitude (-180) year = runProgram ephs latitude 180 year) := by
  have h : programSetup latitude (-180) = programSetup latitude 180 := by
    unfold programSetup
    norm_num
  exact ⟨h, fun ephs year => by unfold runProgram; rw [h]⟩

end PlanetChart
